import Mathlib

/-!
Verification development for the MemoryBlockLocker template of the MacTerm
repository (src/Build/Shared/Code/MemoryBlockLocker.template.h).

The locker keeps, per opaque structure reference, a lock count stored as a
UInt16 item in a keyed Carbon Collection.  The collection is keyed by the
constant tag kMyCollectionTagLockCount and by returnReferenceCollectionID,
which reinterprets the reference as a 32-bit integer, so references are
modelled directly as integers.  UInt16 values are modelled as natural
numbers with explicit reduction modulo 2 to the 16th (65536) everywhere the
C arithmetic converts back to UInt16.  Fallible collection writes are
modelled by an explicit writeOk parameter standing for the OSStatus result
of AddCollectionItem.
-/

/-- Opaque structure reference; returnReferenceCollectionID reinterprets the
reference as a signed 32-bit integer, so references are modelled as integers
(the cast is injective, distinct references give distinct collection IDs). -/
abbrev Handle := Int

/-- Modelled from the spec: the keyed Collection Manager store used through
CollectionWrap (a library include that is not under src).  Per the spec it is
a generic key-value store keyed by numeric tag and numeric ID; the tag here is
always kMyCollectionTagLockCount, so the store reduces to a map from collection
IDs to stored UInt16 lock counts. -/
structure Collection where
  items : Handle → Option Nat

/-- Modelled from the spec: a freshly constructed collection holds no items. -/
def Collection.empty : Collection := ⟨fun _ => none⟩

/-- Modelled from the spec: AddCollectionItem with the same tag and ID as an
existing item implicitly replaces the previous item, effectively updating its
value; otherwise it adds a new item. -/
def addCollectionItem (c : Collection) (h : Handle) (v : Nat) : Collection :=
  ⟨fun x => if x = h then some v else c.items x⟩

/-- Modelled from the spec: RemoveCollectionItem deletes the item when present
(second component true stands for noErr); the only defined failure is the
item-not-found error, which leaves the collection unchanged (second component
false). -/
def removeCollectionItem (c : Collection) (h : Handle) : Collection × Bool :=
  if (c.items h).isSome then
    (⟨fun x => if x = h then none else c.items x⟩, true)
  else
    (c, false)

/-- returnLockCount: GetCollectionItem on the lock-count tag; when the item is
not found the reference simply has never been locked and the count reads as 0. -/
def returnLockCount (c : Collection) (h : Handle) : Nat :=
  match c.items h with
  | some v => v
  | none => 0

/-- isLocked: the reference is considered locked exactly when a lock-count item
is currently stored in the collection for it (GetCollectionItemInfo == noErr). -/
def isLocked (c : Collection) (h : Handle) : Bool :=
  (c.items h).isSome

/-- incrementLockCount: reads the old count, stores old + 1 converted back to
UInt16 (reduction modulo 65536), and returns the new count; when the collection
write fails (writeOk = false) the collection is untouched and the old count is
returned, underscoring the failure. -/
def incrementLockCount (c : Collection) (h : Handle) (writeOk : Bool) :
    Collection × Nat :=
  let oldLockCount := returnLockCount c h
  let newLockCount := (oldLockCount + 1) % 65536
  if writeOk then (addCollectionItem c h newLockCount, newLockCount)
  else (c, oldLockCount)

/-- The condition asserted at the top of decrementLockCount
(assert(oldLockCount > 0)); with assertions disabled the function keeps
running past it. -/
abbrev decrementPrecondition (c : Collection) (h : Handle) : Prop :=
  0 < returnLockCount c h

/-- decrementLockCount with assertions disabled: reads the old count, computes
old - 1 in int arithmetic converted back to UInt16 (so 0 - 1 becomes 65535),
stores it, removes the item when the new count is 0, and returns the new count;
on any collection error the old count is returned instead. -/
def decrementLockCount (c : Collection) (h : Handle) (writeOk : Bool) :
    Collection × Nat :=
  let oldLockCount := returnLockCount c h
  let newLockCount := (oldLockCount + 65535) % 65536
  if writeOk then
    let afterAdd := addCollectionItem c h newLockCount
    if newLockCount = 0 then
      let afterRemove := removeCollectionItem afterAdd h
      if afterRemove.2 then (afterRemove.1, newLockCount)
      else (afterRemove.1, oldLockCount)
    else (afterAdd, newLockCount)
  else (c, oldLockCount)

/-- The scoped guard: it stores the locker, the reference and the pointer
resolved by acquireLock; only the reference matters for lock-count bookkeeping
(the locker is the collection state threaded explicitly). -/
structure LockAcquireRelease where
  ref : Handle

/-- Modelled from the spec: acquireLock is pure virtual and its concrete
subclasses are outside src; the header requires every implementation to call
incrementLockCount, so a successful guard construction is modelled as that
mandatory increment together with storing the reference. -/
def LockAcquireRelease.construct (c : Collection) (h : Handle) :
    LockAcquireRelease × Collection :=
  (⟨h⟩, (incrementLockCount c h true).1)

/-- Modelled from the spec: releaseLock is pure virtual and the header requires
every implementation to call decrementLockCount; guard destruction calls
releaseLock on the stored reference, modelled as that mandatory decrement. -/
def LockAcquireRelease.destruct (g : LockAcquireRelease) (c : Collection) :
    Collection :=
  (decrementLockCount c g.ref true).1

/-- Memberwise copy of a guard: the class declares no copy constructor, so the
C++ language implicitly provides one that copies the locker reference, the
stored reference and the pointer (a reference member suppresses only the
implicit copy assignment operator, not copy construction). -/
def LockAcquireRelease.copyCtor (g : LockAcquireRelease) : LockAcquireRelease :=
  ⟨g.ref⟩

/-- N successful acquisitions of the same handle starting from the empty
registry: each acquireLock performs its mandatory incrementLockCount with a
successful collection write. -/
def iterateInc (h : Handle) : Nat → Collection
  | 0 => Collection.empty
  | n + 1 => (incrementLockCount (iterateInc h n) h true).1

/-- One bookkeeping operation on the registry: an acquisition (mandatory
incrementLockCount) or a release (mandatory decrementLockCount), each carrying
the success of its collection write. -/
inductive LockOp where
  | acquire (h : Handle) (writeOk : Bool)
  | release (h : Handle) (writeOk : Bool)

/-- The handle an operation touches. -/
def LockOp.handle : LockOp → Handle
  | .acquire h _ => h
  | .release h _ => h

/-- Apply one bookkeeping operation to the registry state. -/
def applyLockOp (c : Collection) : LockOp → Collection
  | .acquire h w => (incrementLockCount c h w).1
  | .release h w => (decrementLockCount c h w).1

/-- Run a sequence of bookkeeping operations. -/
def runLockOps (c : Collection) (ops : List LockOp) : Collection :=
  ops.foldl applyLockOp c

/-- Registry states reachable from the empty registry through the public API
used legally: acquisitions at will, releases only while the tracked count is
positive (the precondition asserted by decrementLockCount). -/
inductive Reachable : Collection → Prop where
  | empty : Reachable Collection.empty
  | inc (c : Collection) (h : Handle) (w : Bool) :
      Reachable c → Reachable (incrementLockCount c h w).1
  | dec (c : Collection) (h : Handle) (w : Bool) :
      Reachable c → 0 < returnLockCount c h →
      Reachable (decrementLockCount c h w).1

/-- Registry states reachable as above with the extra guarantee that no
acquisition ever wrapped the 16-bit count (every increment happened while the
count was below 65535). -/
inductive ReachableNoWrap : Collection → Prop where
  | empty : ReachableNoWrap Collection.empty
  | inc (c : Collection) (h : Handle) (w : Bool) :
      ReachableNoWrap c → returnLockCount c h < 65535 →
      ReachableNoWrap (incrementLockCount c h w).1
  | dec (c : Collection) (h : Handle) (w : Bool) :
      ReachableNoWrap c → 0 < returnLockCount c h →
      ReachableNoWrap (decrementLockCount c h w).1

/-- Every stored lock-count item is positive and fits in a UInt16. -/
def CountsWellFormed (c : Collection) : Prop :=
  ∀ h v, c.items h = some v → 0 < v ∧ v < 65536

section BasicLemmas

theorem returnLockCount_eq_getD (c : Collection) (h : Handle) :
    returnLockCount c h = (c.items h).getD 0 := by
  cases hc : c.items h <;> simp [returnLockCount, hc]

theorem addCollectionItem_items (c : Collection) (h : Handle) (v : Nat)
    (x : Handle) :
    (addCollectionItem c h v).items x = if x = h then some v else c.items x :=
  rfl

theorem removeCollectionItem_items (c : Collection) (h : Handle) (x : Handle) :
    (removeCollectionItem c h).1.items x = if x = h then none else c.items x := by
  by_cases hs : (c.items h).isSome
  · simp [removeCollectionItem, hs]
  · rw [Option.not_isSome_iff_eq_none] at hs
    by_cases hx : x = h
    · subst hx; simp [removeCollectionItem, hs]
    · simp [removeCollectionItem, hs, hx]

theorem incrementLockCount_items (c : Collection) (h x : Handle) :
    (incrementLockCount c h true).1.items x =
      if x = h then some ((returnLockCount c h + 1) % 65536) else c.items x := by
  simp [incrementLockCount, addCollectionItem]

theorem incrementLockCount_snd (c : Collection) (h : Handle) :
    (incrementLockCount c h true).2 = (returnLockCount c h + 1) % 65536 := by
  simp [incrementLockCount]

theorem decrementLockCount_items (c : Collection) (h x : Handle) :
    (decrementLockCount c h true).1.items x =
      if x = h then
        (if (returnLockCount c h + 65535) % 65536 = 0 then none
         else some ((returnLockCount c h + 65535) % 65536))
      else c.items x := by
  by_cases h0 : (returnLockCount c h + 65535) % 65536 = 0
  · have hs : ((addCollectionItem c h 0).items h).isSome = true := by
      simp [addCollectionItem]
    simp only [decrementLockCount, h0, if_true, if_pos]
    simp only [removeCollectionItem, hs, if_true]
    by_cases hx : x = h <;> simp [hx, addCollectionItem]
  · simp only [decrementLockCount, h0, if_false, if_true]
    by_cases hx : x = h <;> simp [hx, addCollectionItem, h0]

theorem decrementLockCount_snd (c : Collection) (h : Handle) :
    (decrementLockCount c h true).2 = (returnLockCount c h + 65535) % 65536 := by
  by_cases h0 : (returnLockCount c h + 65535) % 65536 = 0
  · have hs : ((addCollectionItem c h 0).items h).isSome = true := by
      simp [addCollectionItem]
    simp only [decrementLockCount, h0, if_true]
    simp [removeCollectionItem, hs, h0]
  · simp [decrementLockCount, h0]

theorem incrementLockCount_count_self (c : Collection) (h : Handle) :
    returnLockCount (incrementLockCount c h true).1 h =
      (returnLockCount c h + 1) % 65536 := by
  rw [returnLockCount_eq_getD, incrementLockCount_items]
  simp

theorem decrementLockCount_count_self (c : Collection) (h : Handle) :
    returnLockCount (decrementLockCount c h true).1 h =
      (returnLockCount c h + 65535) % 65536 := by
  rw [returnLockCount_eq_getD, decrementLockCount_items]
  by_cases h0 : (returnLockCount c h + 65535) % 65536 = 0 <;> simp [h0]

theorem incrementLockCount_frame (c : Collection) (h x : Handle) (w : Bool)
    (hx : x ≠ h) :
    (incrementLockCount c h w).1.items x = c.items x := by
  cases w
  · rfl
  · rw [incrementLockCount_items, if_neg hx]

theorem decrementLockCount_frame (c : Collection) (h x : Handle) (w : Bool)
    (hx : x ≠ h) :
    (decrementLockCount c h w).1.items x = c.items x := by
  cases w
  · rfl
  · rw [decrementLockCount_items, if_neg hx]

end BasicLemmas

section IterationLemmas

theorem iterateInc_items_self (h : Handle) :
    ∀ n : Nat, 0 < n → (iterateInc h n).items h = some (n % 65536) := by
  intro n
  induction n with
  | zero => intro hn; exact absurd hn (by simp)
  | succ m ih =>
      intro _
      have hcount : returnLockCount (iterateInc h m) h = m % 65536 := by
        cases m with
        | zero => simp [iterateInc, Collection.empty, returnLockCount]
        | succ k =>
            rw [returnLockCount_eq_getD, ih (Nat.succ_pos k)]
            simp
      show (incrementLockCount (iterateInc h m) h true).1.items h = _
      rw [incrementLockCount_items, if_pos rfl, hcount]
      have : (m % 65536 + 1) % 65536 = (m + 1) % 65536 := by omega
      rw [this]

theorem iterateInc_count (h : Handle) (n : Nat) :
    returnLockCount (iterateInc h n) h = n % 65536 := by
  cases n with
  | zero => simp [iterateInc, Collection.empty, returnLockCount]
  | succ m =>
      rw [returnLockCount_eq_getD, iterateInc_items_self h (m + 1) (Nat.succ_pos m)]
      simp

theorem reachable_iterateInc (h : Handle) (n : Nat) :
    Reachable (iterateInc h n) := by
  induction n with
  | zero => exact Reachable.empty
  | succ m ih => exact Reachable.inc (iterateInc h m) h true ih

end IterationLemmas

section InvariantLemmas

theorem countsWellFormed_empty : CountsWellFormed Collection.empty := by
  intro h v hv
  simp [Collection.empty] at hv

theorem countsWellFormed_inc (c : Collection) (h : Handle) (w : Bool)
    (hwf : CountsWellFormed c) (hlt : returnLockCount c h < 65535) :
    CountsWellFormed (incrementLockCount c h w).1 := by
  cases w
  · exact hwf
  · intro x v hv
    rw [incrementLockCount_items] at hv
    by_cases hx : x = h
    · rw [if_pos hx] at hv
      have hmod : (returnLockCount c h + 1) % 65536 = returnLockCount c h + 1 := by
        omega
      rw [hmod] at hv
      have hv2 : v = returnLockCount c h + 1 := by
        exact (Option.some_inj.mp hv).symm
      omega
    · rw [if_neg hx] at hv
      exact hwf x v hv

theorem countsWellFormed_dec (c : Collection) (h : Handle) (w : Bool)
    (hwf : CountsWellFormed c) (hpos : 0 < returnLockCount c h) :
    CountsWellFormed (decrementLockCount c h w).1 := by
  cases w
  · exact hwf
  · intro x v hv
    rw [decrementLockCount_items] at hv
    by_cases hx : x = h
    · rw [if_pos hx] at hv
      have hub : returnLockCount c h < 65536 := by
        rw [returnLockCount_eq_getD] at hpos ⊢
        cases hc : c.items h with
        | none => rw [hc] at hpos; simp at hpos
        | some u => simpa using (hwf h u hc).2
      have hmod : (returnLockCount c h + 65535) % 65536 = returnLockCount c h - 1 := by
        omega
      rw [hmod] at hv
      by_cases hz : returnLockCount c h - 1 = 0
      · rw [if_pos hz] at hv; exact absurd hv (by simp)
      · rw [if_neg hz] at hv
        have hv2 : v = returnLockCount c h - 1 := (Option.some_inj.mp hv).symm
        omega
    · rw [if_neg hx] at hv
      exact hwf x v hv

theorem countsWellFormed_of_reachableNoWrap (c : Collection)
    (hr : ReachableNoWrap c) : CountsWellFormed c := by
  induction hr with
  | empty => exact countsWellFormed_empty
  | inc c h w _ hlt ih => exact countsWellFormed_inc c h w ih hlt
  | dec c h w _ hpos ih => exact countsWellFormed_dec c h w ih hpos

end InvariantLemmas

section TraceLemmas

theorem applyLockOp_frame (c : Collection) (op : LockOp) (h : Handle)
    (hop : op.handle ≠ h) : (applyLockOp c op).items h = c.items h := by
  cases op with
  | acquire h2 w =>
      exact incrementLockCount_frame c h2 h w (fun he => hop he.symm)
  | release h2 w =>
      exact decrementLockCount_frame c h2 h w (fun he => hop he.symm)

theorem runLockOps_frame (h : Handle) :
    ∀ (ops : List LockOp) (c : Collection),
      (∀ op ∈ ops, LockOp.handle op ≠ h) →
      (runLockOps c ops).items h = c.items h := by
  intro ops
  induction ops with
  | nil => intro c _; rfl
  | cons op rest ih =>
      intro c hall
      show (runLockOps (applyLockOp c op) rest).items h = c.items h
      rw [ih (applyLockOp c op) (fun o ho => hall o (List.mem_cons_of_mem op ho))]
      exact applyLockOp_frame c op h (hall op (List.mem_cons_self op rest))

end TraceLemmas

section Examples

/-- Example registry holding handle 3 with lock count 5. -/
def exampleRegistryA : Collection := addCollectionItem Collection.empty 3 5

/-- Example registry holding handle 0 with the maximal UInt16 lock count. -/
def exampleRegistryMax : Collection := addCollectionItem Collection.empty 0 65535

/-- Example registry holding handle 7 with lock count 1. -/
def exampleRegistryOne : Collection := addCollectionItem Collection.empty 7 1

/-- Example operation sequence that never touches handle 7. -/
def exampleOps : List LockOp :=
  [LockOp.acquire 1 true, LockOp.acquire 2 true, LockOp.release 1 true]

end Examples

/-- C1: evaluation at the failing input.  Releasing handle 7 on the empty
registry (tracked count 0) violates the precondition asserted by
decrementLockCount; with assertions disabled the call computes 0 - 1 in UInt16,
stores 65535 and returns 65535, so the count does not stay at 0 and the
returned count is not the unchanged 0 the claim requires. -/
theorem claim_C1_release_at_zero_wraps :
    returnLockCount Collection.empty 7 = 0 ∧
    ¬ decrementPrecondition Collection.empty 7 ∧
    (decrementLockCount Collection.empty 7 true).2 = 65535 ∧
    returnLockCount (decrementLockCount Collection.empty 7 true).1 7 = 65535 := by
  decide

/-- C2: constructing a LockAcquireRelease guard over a handle and then
destroying it restores the tracked lock count of that handle to exactly its
prior value, for every registry state whose current count fits in a UInt16. -/
theorem claim_C2_guard_roundtrip_net_zero (c : Collection) (h : Handle)
    (hlt : returnLockCount c h < 65536) :
    returnLockCount
      ((LockAcquireRelease.construct c h).1.destruct
        (LockAcquireRelease.construct c h).2) h = returnLockCount c h := by
  show returnLockCount
    (decrementLockCount (incrementLockCount c h true).1 h true).1 h = _
  rw [decrementLockCount_count_self, incrementLockCount_count_self]
  omega

/-- C2 witness: the guard round trip on a registry holding count 5 for
handle 3 leaves the count at 5. -/
theorem claim_C2_guard_roundtrip_net_zero_witness :
    returnLockCount exampleRegistryA 3 < 65536 ∧
    returnLockCount
      ((LockAcquireRelease.construct exampleRegistryA 3).1.destruct
        (LockAcquireRelease.construct exampleRegistryA 3).2) 3 =
      returnLockCount exampleRegistryA 3 :=
  ⟨by decide, claim_C2_guard_roundtrip_net_zero exampleRegistryA 3 (by decide)⟩

/-- C3 counterexample: after 65536 successful acquisitions of handle 0 from
the empty registry the tracked count reads 0, not 65536, because the UInt16
count wrapped; so the claimed count-equals-N property fails at N = 65536. -/
theorem claim_C3_counterexample :
    returnLockCount (iterateInc 0 65536) 0 = 0 ∧
    returnLockCount (iterateInc 0 65536) 0 ≠ 65536 := by
  constructor
  · simp [iterateInc_count]
  · simp [iterateInc_count]

/-- C3 amended: after N successful acquisitions of handle h from the empty
registry and before any release, the tracked count equals N modulo 65536
(and hence equals N exactly whenever N is below 65536). -/
theorem claim_C3_amended_count_mod (h : Handle) (n : Nat) :
    returnLockCount (iterateInc h n) h = n % 65536 :=
  iterateInc_count h n

/-- C4: on a handle whose tracked count is N with 0 < N < 65536, one
successful decrement stores and returns N - 1, and when the count reaches 0
the tracking item is removed so isLocked becomes false. -/
theorem claim_C4_release_decrements (c : Collection) (h : Handle) (N : Nat)
    (hc : returnLockCount c h = N) (hpos : 0 < N) (hub : N < 65536) :
    (decrementLockCount c h true).2 = N - 1 ∧
    returnLockCount (decrementLockCount c h true).1 h = N - 1 ∧
    (N = 1 → (decrementLockCount c h true).1.items h = none ∧
      isLocked (decrementLockCount c h true).1 h = false) := by
  have hmod : (N + 65535) % 65536 = N - 1 := by omega
  refine ⟨?_, ?_, ?_⟩
  · rw [decrementLockCount_snd, hc, hmod]
  · rw [decrementLockCount_count_self, hc, hmod]
  · intro h1
    have hz : (returnLockCount c h + 65535) % 65536 = 0 := by simp [hc, h1]
    have hnone : (decrementLockCount c h true).1.items h = none := by
      simp [decrementLockCount_items, hz]
    exact ⟨hnone, by simp [isLocked, hnone]⟩

/-- C4 witness: releasing handle 7 holding count 1 returns 0, removes the
tracking item and makes isLocked false. -/
theorem claim_C4_release_decrements_witness :
    returnLockCount exampleRegistryOne 7 = 1 ∧
    ((decrementLockCount exampleRegistryOne 7 true).2 = 0 ∧
      returnLockCount (decrementLockCount exampleRegistryOne 7 true).1 7 = 0 ∧
      (1 = 1 → (decrementLockCount exampleRegistryOne 7 true).1.items 7 = none ∧
        isLocked (decrementLockCount exampleRegistryOne 7 true).1 7 = false)) :=
  ⟨by decide,
   claim_C4_release_decrements exampleRegistryOne 7 1 (by decide) (by decide)
     (by decide)⟩

/-- C5: incrementing or decrementing the lock count of handle A never changes
the tracked lock count of a distinct handle B, whether or not the collection
write succeeds. -/
theorem claim_C5_independent_handles (c : Collection) (A B : Handle)
    (wi wd : Bool) (hne : A ≠ B) :
    returnLockCount (incrementLockCount c A wi).1 B = returnLockCount c B ∧
    returnLockCount (decrementLockCount c A wd).1 B = returnLockCount c B := by
  constructor
  · rw [returnLockCount_eq_getD, returnLockCount_eq_getD,
      incrementLockCount_frame c A B wi (fun he => hne he.symm)]
  · rw [returnLockCount_eq_getD, returnLockCount_eq_getD,
      decrementLockCount_frame c A B wd (fun he => hne he.symm)]

/-- C5 witness: operating on handle 1 leaves the count of handle 2 unchanged
in a registry holding handle 3. -/
theorem claim_C5_independent_handles_witness :
    (1 : Handle) ≠ 2 ∧
    (returnLockCount (incrementLockCount exampleRegistryA 1 true).1 2 =
       returnLockCount exampleRegistryA 2 ∧
     returnLockCount (decrementLockCount exampleRegistryA 1 true).1 2 =
       returnLockCount exampleRegistryA 2) :=
  ⟨by decide, claim_C5_independent_handles exampleRegistryA 1 2 true true (by decide)⟩

/-- C6 counterexample: the state reached by 65536 successful acquisitions of
handle 0 from the empty registry is reachable through the public API, its
tracking item for handle 0 is still present (isLocked is true), yet the
tracked count reads 0, refuting the claimed equivalence between being locked
and having a positive count. -/
theorem claim_C6_counterexample :
    Reachable (iterateInc 0 65536) ∧
    isLocked (iterateInc 0 65536) 0 = true ∧
    ¬ (0 < returnLockCount (iterateInc 0 65536) 0) := by
  refine ⟨reachable_iterateInc 0 65536, ?_, ?_⟩
  · simp [isLocked, iterateInc_items_self 0 65536 (by decide)]
  · simp [iterateInc_count]

/-- C6 amended: in every registry state reachable from empty in which no
acquisition ever wrapped the 16-bit count (each increment happened below
65535) and every release found a positive count, a handle is locked exactly
when its tracked count is positive; equivalently a tracking item is present
exactly when the count is nonzero. -/
theorem claim_C6_amended_isLocked_iff (c : Collection) (hr : ReachableNoWrap c)
    (h : Handle) :
    isLocked c h = true ↔ 0 < returnLockCount c h := by
  have hwf := countsWellFormed_of_reachableNoWrap c hr
  rw [returnLockCount_eq_getD]
  cases hc : c.items h with
  | none => simp [isLocked, hc]
  | some v =>
      simp [isLocked, hc]
      exact (hwf h v hc).1

/-- C6 witness: the amended equivalence evaluated in the no-wrap reachable
state holding one lock on handle 5. -/
theorem claim_C6_amended_isLocked_iff_witness :
    isLocked (incrementLockCount Collection.empty 5 true).1 5 = true ↔
      0 < returnLockCount (incrementLockCount Collection.empty 5 true).1 5 :=
  claim_C6_amended_isLocked_iff (incrementLockCount Collection.empty 5 true).1
    (ReachableNoWrap.inc Collection.empty 5 true ReachableNoWrap.empty (by decide))
    5

/-- C7: when the collection write fails, incrementLockCount and
decrementLockCount both return the previous lock count and leave the registry
exactly as it was before the call (the very same state, not merely an
equivalent one). -/
theorem claim_C7_write_failure_no_effect (c : Collection) (h : Handle) :
    incrementLockCount c h false = (c, returnLockCount c h) ∧
    decrementLockCount c h false = (c, returnLockCount c h) :=
  ⟨rfl, rfl⟩

/-- C8: a handle never operated on by any acquisition or release in the whole
history of a registry has tracked count 0 and is not locked. -/
theorem claim_C8_never_acquired_zero (ops : List LockOp) (h : Handle)
    (hops : ∀ op ∈ ops, LockOp.handle op ≠ h) :
    returnLockCount (runLockOps Collection.empty ops) h = 0 ∧
    isLocked (runLockOps Collection.empty ops) h = false := by
  have hit : (runLockOps Collection.empty ops).items h = none := by
    rw [runLockOps_frame h ops Collection.empty hops]; rfl
  constructor
  · rw [returnLockCount_eq_getD, hit]; rfl
  · simp [isLocked, hit]

/-- C8 witness: handle 7 is untouched by a history of acquisitions and a
release on handles 1 and 2, so its count is 0 and it is unlocked. -/
theorem claim_C8_never_acquired_zero_witness :
    (∀ op ∈ exampleOps, LockOp.handle op ≠ 7) ∧
    (returnLockCount (runLockOps Collection.empty exampleOps) 7 = 0 ∧
     isLocked (runLockOps Collection.empty exampleOps) 7 = false) :=
  ⟨by decide, claim_C8_never_acquired_zero exampleOps 7 (by decide)⟩

/-- C9: evaluation at the failing input.  LockAcquireRelease declares no copy
constructor, so the C++ language supplies memberwise copy construction (the
reference member suppresses only copy assignment); constructing one guard over
handle 7 (count 1), copying it, and destroying both instances runs releaseLock
twice for the single acquisition, driving the count from 1 through 0 to 65535
instead of the balanced 0 the claim requires. -/
theorem claim_C9_guard_copy_double_release :
    returnLockCount (LockAcquireRelease.construct Collection.empty 7).2 7 = 1 ∧
    returnLockCount
      ((LockAcquireRelease.construct Collection.empty 7).1.destruct
        (LockAcquireRelease.construct Collection.empty 7).2) 7 = 0 ∧
    returnLockCount
      (((LockAcquireRelease.construct Collection.empty 7).1.copyCtor).destruct
        ((LockAcquireRelease.construct Collection.empty 7).1.destruct
          (LockAcquireRelease.construct Collection.empty 7).2)) 7 = 65535 := by
  decide

/-- C10: lock counts are 16-bit values updated modulo 65536: a successful
increment at count 65535 stores and returns 0, and a successful decrement at
count 0 (assertion disabled) stores and returns 65535. -/
theorem claim_C10_counts_mod_65536 (c : Collection) (h : Handle) :
    (returnLockCount c h = 65535 →
      (incrementLockCount c h true).2 = 0 ∧
      returnLockCount (incrementLockCount c h true).1 h = 0) ∧
    (returnLockCount c h = 0 →
      (decrementLockCount c h true).2 = 65535 ∧
      returnLockCount (decrementLockCount c h true).1 h = 65535) := by
  constructor
  · intro h65
    constructor
    · rw [incrementLockCount_snd, h65]
    · rw [incrementLockCount_count_self, h65]
  · intro h0
    constructor
    · rw [decrementLockCount_snd, h0]
    · rw [decrementLockCount_count_self, h0]

/-- C10 witness: the wraparound evaluated at a registry holding count 65535
for handle 0 and at the empty registry. -/
theorem claim_C10_counts_mod_65536_witness :
    ((incrementLockCount exampleRegistryMax 0 true).2 = 0 ∧
      returnLockCount (incrementLockCount exampleRegistryMax 0 true).1 0 = 0) ∧
    ((decrementLockCount Collection.empty 0 true).2 = 65535 ∧
      returnLockCount (decrementLockCount Collection.empty 0 true).1 0 = 65535) :=
  ⟨(claim_C10_counts_mod_65536 exampleRegistryMax 0).1 (by decide),
   (claim_C10_counts_mod_65536 Collection.empty 0).2 (by decide)⟩
